import Mathlib

/-!
# Verification of the PEtab GUI table-model and controller layer

Shallow embedding of `src/huiPESTO/PEtab_edit_gui/models/pandas_table_model.py`,
`src/huiPESTO/PEtab_edit_gui/utils.py` (`validate_value`),
`src/controllers/table_controllers.py` and
`src/huiPESTO/PEtab_edit_gui/penGUI_controller.py`, together with proofs of the
behavioural properties of cell editing, index renaming, row deletion, observable
rename cascade, saving and table upload.

Cell values that live in a pandas `DataFrame` (or arrive from a Qt editor) are
modelled by `PyVal`; a `DataFrame` is a column-name list, an index-label list
and a row list; Qt signal emissions are collected in a `List Sig`.
-/

namespace PetabGui

/-- A Python value as stored in a DataFrame cell or index label.
Strings come from the Qt editors; floats are produced by `validate_value`
(`float(value)`) and are kept by their accepted literal; integer labels are
produced by `insertRows` (`df.loc[len(df) + i] = ...`); booleans by
`bool(value)`.  Equality mirrors Python `==` on these values: values of
different runtime types are never equal (a str never equals a float/int). -/
inductive PyVal where
  | str : String → PyVal
  | num : String → PyVal
  | intv : Nat → PyVal
  | boolv : Bool → PyVal
deriving DecidableEq, Repr

/-- A pandas DataFrame: named columns, an index (row labels) and the row data.
`index.length = rows.length` and each row has `columns.length` cells in every
state the GUI constructs; the theorems carry these bounds where needed. -/
structure DataFrame where
  columns : List String
  index : List PyVal
  rows : List (List PyVal)
deriving DecidableEq, Repr

/-- Qt signal emissions of `PandasTableModel` (declaration order as in the
source: `observable_id_changed(new_id, old_id)`, `new_log_message(message,
color)`, `cell_needs_validation(row, column)`, `something_changed`,
`inserted_row`), plus the generic `dataChanged` / `layoutChanged` signals. -/
inductive Sig where
  | observableIdChanged : PyVal → PyVal → Sig
  | newLogMessage : String → String → Sig
  | cellNeedsValidation : Nat → Nat → Sig
  | somethingChanged : Sig
  | insertedRow : Sig
  | dataChanged : Sig
  | layoutChanged : Sig
deriving DecidableEq, Repr

/-- The state of a `PandasTableModel`: the wrapped DataFrame, the
`_allowed_columns` mapping (column name ↦ declared type, as an association
list), the `table_type` string, the `_invalid_cells` set and the
`_has_named_index` flag (`True` exactly on `IndexedPandasTableModel` and its
subclasses). -/
structure TableModel where
  df : DataFrame
  allowed_columns : List (String × String)
  table_type : String
  invalid_cells : List (Nat × Nat)
  has_named_index : Bool
deriving DecidableEq, Repr

/-- Result of a `setData` call: the returned Bool, the post-state and the
signals emitted (in emission order). -/
structure SetDataResult where
  ok : Bool
  model : TableModel
  sigs : List Sig
deriving DecidableEq, Repr

/-! ## Python `float(str)` acceptance

`validate_value` converts a NUMERIC cell with `float(value)` and treats a
`ValueError` as rejection.  `pyFloatOk` decides whether CPython's
`float(str)` accepts the string: optional surrounding whitespace, an optional
sign, then `inf`/`infinity`/`nan` (case-insensitive) or a decimal literal
`digits [. [digits]] [exp]` / `. digits [exp]` with single underscores allowed
strictly between digits. -/

/-- After one leading digit, the remaining characters of a digit part:
digits, with each underscore followed by a digit. -/
def digitRun : List Char → Bool
  | [] => true
  | '_' :: c :: rest => c.isDigit && digitRun rest
  | ['_'] => false
  | c :: rest => c.isDigit && digitRun rest

/-- A nonempty run of digits with single underscores strictly between digits
(CPython digit-part grammar). -/
def isDigitPart : List Char → Bool
  | [] => false
  | c :: rest => c.isDigit && digitRun rest

/-- Drop one optional leading sign. -/
def dropSign : List Char → List Char
  | '+' :: rest => rest
  | '-' :: rest => rest
  | cs => cs

/-- Split a character list at the first occurrence of a separator
satisfying `p`, if any. -/
def splitAtFirst (p : Char → Bool) : List Char → List Char × Option (List Char)
  | [] => ([], none)
  | c :: rest =>
    if p c then ([], some rest)
    else
      let (pre, post) := splitAtFirst p rest
      (c :: pre, post)

/-- The mantissa of a decimal literal: `digits`, `digits.`, `digits.digits`
or `.digits`. -/
def mantissaOk (cs : List Char) : Bool :=
  match splitAtFirst (· == '.') cs with
  | (intPart, none) => isDigitPart intPart
  | (intPart, some fracPart) =>
    if intPart.isEmpty then isDigitPart fracPart
    else isDigitPart intPart && (fracPart.isEmpty || isDigitPart fracPart)

/-- The exponent of a decimal literal: optional sign then a digit part. -/
def exponentOk (cs : List Char) : Bool :=
  isDigitPart (dropSign cs)

/-- `str.strip()` on the characters of the string: drop surrounding
whitespace. -/
def pyTrim (cs : List Char) : List Char :=
  ((cs.dropWhile Char.isWhitespace).reverse.dropWhile Char.isWhitespace).reverse

/-- Whether CPython `float(s)` succeeds on the string `s`. -/
def pyFloatOk (s : String) : Bool :=
  let cs := dropSign (pyTrim s.data)
  let lower := cs.map Char.toLower
  if lower = ['i', 'n', 'f'] ∨ lower = ['i', 'n', 'f', 'i', 'n', 'i', 't', 'y']
      ∨ lower = ['n', 'a', 'n'] then true
  else
    match splitAtFirst (fun c => c == 'e' || c == 'E') cs with
    | (mant, none) => mantissaOk mant
    | (mant, some ex) => mantissaOk mant && exponentOk ex

/-- `utils.validate_value(value, expected_type)`: STRING keeps the string
(`str` on a str is the identity), NUMERIC converts with `float(value)` and
reports the `ValueError` message on failure, BOOLEAN converts with
`bool(value)` (never raises on a string; empty string ↦ False); any other
declared type leaves the value untouched.  Returns `(converted value?,
error message?)` exactly as the Python pair `(value, None)` / `(None, msg)`. -/
def validate_value (value : String) (expected_type : String) :
    Option PyVal × Option String :=
  if expected_type = "STRING" then (some (.str value), none)
  else if expected_type = "NUMERIC" then
    if pyFloatOk value then (some (.num value), none)
    else (none, some ("could not convert string to float: " ++ value))
  else if expected_type = "BOOLEAN" then (some (.boolv (value ≠ "")), none)
  else (some (.str value), none)

/-! ## `PandasTableModel` operations
(`src/huiPESTO/PEtab_edit_gui/models/pandas_table_model.py`) -/

/-- `df.loc[label] = row`: overwrite every row whose index label equals
`label`, or append a new row with that label when it is absent. -/
def locSet (df : DataFrame) (label : PyVal) (row : List PyVal) : DataFrame :=
  if label ∈ df.index then
    { df with rows := ((df.index.zip df.rows).map
        (fun p => if p.1 = label then row else p.2)) }
  else
    { df with index := df.index ++ [label], rows := df.rows ++ [row] }

/-- `PandasTableModel.insertRows`: starting from `end_position = len(df)`,
run `df.loc[end_position + i] = [""] * df.shape[1]` for `i in range(rows)`. -/
def insertRows (df : DataFrame) (rows : Nat) : DataFrame :=
  let end_position := df.index.length
  (List.range rows).foldl
    (fun d i => locSet d (.intv (end_position + i))
      (List.replicate d.columns.length (.str ""))) df

/-- `df.iloc[row, col] = v`: positional single-cell update (positions out of
range never occur in the GUI's calls). -/
def ilocSet (df : DataFrame) (row col : Nat) (v : PyVal) : DataFrame :=
  { df with rows := df.rows.set row ((df.rows.getD row []).set col v) }

/-- `IndexedPandasTableModel.handle_named_index`: reject when the new value
equals the old label, reject (with a log message) when the new value is
already an index label, otherwise `df.rename(index={old: new}, inplace=True)`
— which replaces every occurrence of the old label — and emit
`dataChanged`, `observable_id_changed(new, old)`, `cell_needs_validation(row,
0)` and `something_changed(True)`.  The `try/except` around the rename cannot
fire on a plain label substitution, so the error branch is not modelled. -/
def handle_named_index (m : TableModel) (row : Nat) (value : String) :
    SetDataResult :=
  let old_value := m.df.index.getD row (.str "")
  if PyVal.str value = old_value then ⟨false, m, []⟩
  else if PyVal.str value ∈ m.df.index then
    ⟨false, m, [.newLogMessage ("Duplicate index value " ++ value) "red"]⟩
  else
    ⟨true,
      { m with df := { m.df with index := (m.df.index.map
          (fun l => if l = old_value then PyVal.str value else l)) } },
      [.dataChanged, .observableIdChanged (.str value) old_value,
       .cellNeedsValidation row 0, .somethingChanged]⟩

/-- `PandasTableModel.setData` (valid index, `EditRole`): a trailing-row edit
first materializes a new empty row with `insertRows`; column 0 of a
named-index model is dispatched to `handle_named_index`; otherwise the edit is
rejected when the value equals the stored one, committed without validation on
the `observableId` column (emitting `observable_id_changed(new, old)`), and on
every other column validated against the declared type from
`_allowed_columns`, rejecting with a log message on conversion failure. -/
def setData (m : TableModel) (row col : Nat) (value : String) : SetDataResult :=
  let col_setoff := if m.has_named_index then 1 else 0
  let inserted := row = m.df.index.length
  let m1 := if inserted then { m with df := insertRows m.df 1 } else m
  let preSigs : List Sig := if inserted then [.layoutChanged, .insertedRow]
    else []
  if col = 0 ∧ m1.has_named_index then
    let r := handle_named_index m1 row value
    ⟨r.ok, r.model, preSigs ++ r.sigs⟩
  else
    let column_name := m1.df.columns.getD (col - col_setoff) ""
    let old_value := (m1.df.rows.getD row []).getD (col - col_setoff) (.str "")
    if PyVal.str value = old_value then ⟨false, m1, preSigs⟩
    else if column_name = "observableId" then
      ⟨true,
        { m1 with df := ilocSet m1.df row (col - col_setoff) (.str value) },
        preSigs ++ [.dataChanged, .observableIdChanged (.str value) old_value,
          .cellNeedsValidation row col, .somethingChanged]⟩
    else
      match m1.allowed_columns.lookup column_name with
      | some expected_type =>
        match validate_value value expected_type with
        | (_, some _) =>
          ⟨false, m1, preSigs ++ [.newLogMessage
            ("Column " ++ column_name ++ " expects a value of type " ++
              expected_type ++ ", but got " ++ value) "red"]⟩
        | (some v, none) =>
          ⟨true, { m1 with df := ilocSet m1.df row (col - col_setoff) v },
            preSigs ++ [.cellNeedsValidation row col, .somethingChanged,
              .dataChanged]⟩
        | (none, none) => ⟨false, m1, preSigs⟩
      | none =>
        ⟨true,
          { m1 with df := ilocSet m1.df row (col - col_setoff) (.str value) },
          preSigs ++ [.cellNeedsValidation row col, .somethingChanged,
            .dataChanged]⟩

/-- `PandasTableModel.rowCount`: `df.shape[0] + 1` (the synthetic trailing
"new row" slot); not overridden by any subclass. -/
def rowCount (m : TableModel) : Nat :=
  m.df.index.length + 1

/-- `PandasTableModel.columnCount`: `df.shape[1] + 1` (column 0 shows the
index). -/
def columnCount (m : TableModel) : Nat :=
  m.df.columns.length + 1

/-- `MeasurementModel.columnCount`: overridden to plain `df.shape[1]`. -/
def measurementColumnCount (m : TableModel) : Nat :=
  m.df.columns.length

/-- `ObservableModel.fill_row`: build `data_to_add = {c: "" for c in
df.columns}`, update it with `data`, pop `"observableId"` out of it as the new
index label of `row_position`, and assign the rest positionally to
`df.iloc[row_position]`.  `data`'s keys are a subset of the columns plus
`"observableId"` at the call sites, and `"observableId"` is always supplied
(`pop` would raise otherwise), which the `getD` defaults reflect. -/
def fill_row (m : TableModel) (row_position : Nat)
    (data : List (String × PyVal)) : TableModel :=
  let new_key := (data.lookup "observableId").getD (.str "")
  { m with df := { m.df with
      index := m.df.index.set row_position new_key,
      rows := (m.df.rows.set row_position
        (m.df.columns.map (fun c => (data.lookup c).getD (.str "")))) } }

/-! ## Allowed-column constants (`src/huiPESTO/PEtab_edit_gui/C.py`) and the
model constructors. -/

/-- `C.MEASUREMENT_COLUMNS`. -/
def MEASUREMENT_COLUMNS : List (String × String) :=
  [("observableId", "STRING"), ("preequilibrationConditionId", "STRING"),
   ("simulationConditionId", "STRING"), ("measurement", "NUMERIC"),
   ("time", "NUMERIC"), ("observableParameters", "STRING"),
   ("noiseParameters", "STRING"), ("datasetId", "STRING"),
   ("replicateId", "STRING")]

/-- `C.OBSERVABLE_COLUMNS`. -/
def OBSERVABLE_COLUMNS : List (String × String) :=
  [("observableId", "STRING"), ("observableName", "STRING"),
   ("observableFormula", "STRING"), ("observableTransformation", "STRING"),
   ("noiseFormula", "STRING"), ("noiseDistribution", "STRING")]

/-- `C.PARAMETER_COLUMNS`. -/
def PARAMETER_COLUMNS : List (String × String) :=
  [("parameterId", "STRING"), ("parameterName", "STRING"),
   ("parameterScale", "STRING"), ("lowerBound", "NUMERIC"),
   ("upperBound", "NUMERIC"), ("nominalValue", "NUMERIC"),
   ("estimate", "BOOLEAN"), ("initializationPriorType", "STRING"),
   ("initializationPriorParameters", "STRING"),
   ("objectivePriorType", "STRING"),
   ("objectivePriorParameters", "STRING")]

/-- A fresh `PandasTableModel` (no named index, empty invalid-cell set). -/
def mkPandasTableModel (df : DataFrame) (allowed : List (String × String))
    (ttype : String) : TableModel :=
  ⟨df, allowed, ttype, [], false⟩

/-- A fresh `IndexedPandasTableModel` (`_has_named_index = True`). -/
def mkIndexedPandasTableModel (df : DataFrame)
    (allowed : List (String × String)) (ttype : String) : TableModel :=
  ⟨df, allowed, ttype, [], true⟩

/-- `MeasurementModel.__init__`. -/
def mkMeasurementModel (df : DataFrame) : TableModel :=
  mkPandasTableModel df MEASUREMENT_COLUMNS "measurement"

/-- `ObservableModel.__init__`. -/
def mkObservableModel (df : DataFrame) : TableModel :=
  mkIndexedPandasTableModel df OBSERVABLE_COLUMNS "observable"

/-- `ParameterModel.__init__`. -/
def mkParameterModel (df : DataFrame) : TableModel :=
  mkIndexedPandasTableModel df PARAMETER_COLUMNS "parameter"

/-- `ConditionModel.__init__` (`allowed_columns = {}`: all columns allowed). -/
def mkConditionModel (df : DataFrame) : TableModel :=
  mkIndexedPandasTableModel df [] "condition"

/-! ## Controller operations (`src/controllers/table_controllers.py`,
`src/huiPESTO/PEtab_edit_gui/penGUI_controller.py`) -/

/-- `MeasurementController.rename_observable(old_id, new_id)`: for `row in
range(df.shape[0])`, when `df.at[row, "observableId"] == old_id` set that cell
to `new_id`.  `at` is label-based, and the measurement frame carries a
contiguous RangeIndex (labels coincide with positions), so the loop is a
positional update of the `observableId` column. -/
def rename_observable (df : DataFrame) (old_id new_id : PyVal) : DataFrame :=
  let c := df.columns.indexOf "observableId"
  { df with rows := (df.rows.map
      (fun r => if r.getD c (.str "") = old_id then r.set c new_id else r)) }

/-- `ObservableController.maybe_rename_observable` together with the
`MainController.setup_connections` wiring: a confirmation dialog is shown;
on Yes the controller emits `observable_2be_renamed(old_id, new_id)`, which
is connected to `MeasurementController.rename_observable`; on No nothing
happens.  The dialog reply is the Boolean `reply_yes`. -/
def maybe_rename_observable (reply_yes : Bool) (measurement_df : DataFrame)
    (old_id new_id : PyVal) : DataFrame :=
  if reply_yes then rename_observable measurement_df old_id new_id
  else measurement_df

/-- Insert into a descending-sorted list (model of Python
`sorted(_, reverse=True)`). -/
def insertDesc (a : Nat) : List Nat → List Nat
  | [] => [a]
  | b :: rest => if b ≤ a then a :: b :: rest else b :: insertDesc a rest

/-- Python `sorted(selected_rows, reverse=True)`. -/
def sortDesc : List Nat → List Nat
  | [] => []
  | a :: rest => insertDesc a (sortDesc rest)

/-- `df.drop(label, inplace=True)`: remove every row whose index label equals
`label` (`drop` raises `KeyError` when the label is absent; the deletion
theorems assume the selected labels are present). -/
def dropLabel (df : DataFrame) (label : PyVal) : DataFrame :=
  let keep := (df.index.zip df.rows).filter (fun p => p.1 ≠ label)
  { df with index := keep.map Prod.fst, rows := keep.map Prod.snd }

/-- `df.reset_index(drop=True, inplace=True)`: replace the index by a
contiguous RangeIndex `0 .. nrows-1`. -/
def reset_index (df : DataFrame) : DataFrame :=
  { df with index := (List.range df.rows.length).map .intv }

/-- `Controller.delete_row` /  `TableController.delete_row` core: given the
selected row numbers, return unchanged when the selection is empty, otherwise
`df.drop(row)` for each selected row in descending order, then
`reset_index(drop=True)`. -/
def delete_row (df : DataFrame) (selected_rows : List Nat) : DataFrame :=
  if selected_rows.isEmpty then df
  else
    reset_index ((sortDesc selected_rows).foldl
      (fun d r => dropLabel d (.intv r)) df)

/-- One entry of `Controller.models` in `penGUI_controller.py`, as consumed by
`save_model`: the `table_type` string, the wrapped frame and the
`_invalid_cells` set. -/
structure GuiModelEntry where
  table_type : String
  df : DataFrame
  invalid_cells : List (Nat × Nat)
deriving DecidableEq, Repr

/-- Text of one cell in `DataFrame.to_csv` output (cells of these tables
contain no separators, so no quoting is modelled). -/
def pyValToCsv : PyVal → String
  | .str s => s
  | .num lit => lit
  | .intv n => toString n
  | .boolv b => if b then "True" else "False"

/-- `df.to_csv(index=False)`: the comma-separated header line followed by one
comma-separated line per row; the index is not written. -/
def to_csv (df : DataFrame) : String :=
  String.intercalate "," df.columns ++ "\n" ++
    String.intercalate "\n"
      (df.rows.map (fun r => String.intercalate "," (r.map pyValToCsv)))

/-- `Controller.save_model` archive contents: for each model a file
`f"{model.table_type}.csv"` holding `model._data_frame.to_csv(index=False)`,
then `model.xml` holding `self.sbml_model.sbml_text`. -/
def save_model (models : List GuiModelEntry) (sbml_text : String) :
    List (String × String) :=
  models.map (fun m => (m.table_type ++ ".csv", to_csv m.df)) ++
    [("model.xml", sbml_text)]

/-- `Controller.__init__`: `self.models` is the measurement, observable,
parameter and condition model, in this order. -/
def controllerModels (m_df o_df p_df c_df : DataFrame)
    (i1 i2 i3 i4 : List (Nat × Nat)) : List GuiModelEntry :=
  [⟨"measurement", m_df, i1⟩, ⟨"observable", o_df, i2⟩,
   ⟨"parameter", p_df, i3⟩, ⟨"condition", c_df, i4⟩]

/-- Outcome of `TableController.upload_and_overwrite_table`.
`viewLogFailure` is the `except` branch: it calls `self.view.log_message`,
but `TableViewer` (`src/src/petab_gui/views/table_view.py`) defines no
`log_message` method, so at runtime this branch raises `AttributeError`
instead of writing to the log pane; the frame is untouched either way. -/
inductive UploadOutcome where
  | noFile
  | loggedError : String → UploadOutcome
  | viewLogFailure : String → UploadOutcome
  | overwritten : UploadOutcome
deriving DecidableEq, Repr

/-- `pathlib.PurePath.suffix`: take the final path component; the suffix is
`name[i:]` for the last dot position `i` when `0 < i < len(name) - 1`, and
empty otherwise. -/
def pathSuffix (path : String) : String :=
  let name := (path.data.reverse.takeWhile (fun c => c ≠ '/')).reverse
  match ((List.range name.length).filter
      (fun i => name.getD i ' ' == '.')).getLast? with
  | some i => if 0 < i ∧ i < name.length - 1 then String.mk (name.drop i)
      else ""
  | none => ""

/-- `TableController.upload_and_overwrite_table` with an explicit file path:
empty path returns immediately; suffix `.csv` selects separator `;` and
suffix `.tsv` selects tab, any other suffix is rejected with a log message;
`pd.read_csv(file_path, sep=separator)` is the oracle `read` (`none` models
any raised exception), whose failure hits the `self.view.log_message` branch;
on success `overwrite_df` replaces the model's frame with the parsed one. -/
def upload_and_overwrite_table (read : String → Char → Option DataFrame)
    (file_path : String) (m : TableModel) : TableModel × UploadOutcome :=
  if file_path = "" then (m, .noFile)
  else
    let go := fun (sep : Char) =>
      match read file_path sep with
      | some new_df => ({ m with df := new_df }, UploadOutcome.overwritten)
      | none => (m, UploadOutcome.viewLogFailure "Failed to read file")
    if pathSuffix file_path = ".csv" then go ';'
    else if pathSuffix file_path = ".tsv" then go '\t'
    else
      (m, .loggedError
        "Unsupported file format. Please upload a CSV or TSV file.")

/-! ## Sample data for witnesses and counterexamples -/

/-- A concrete two-row measurement frame (`observableId`, `time`). -/
def sampleMeasurementDf : DataFrame :=
  ⟨["observableId", "time"], [.intv 0, .intv 1],
   [[.str "obs1", .num "1.0"], [.str "obs2", .num "2.0"]]⟩

/-- A concrete two-row observable frame with keys `a`, `b`. -/
def sampleObservableDf : DataFrame :=
  ⟨["observableFormula"], [.str "a", .str "b"], [[.str "x"], [.str "y"]]⟩

/-- A concrete three-row frame with a contiguous RangeIndex. -/
def sampleRangeDf : DataFrame :=
  ⟨["c"], [.intv 0, .intv 1, .intv 2],
   [[.str "r0"], [.str "r1"], [.str "r2"]]⟩

/-- A `pd.read_csv` oracle whose parse always fails. -/
def failingRead : String → Char → Option DataFrame :=
  fun _ _ => none

/-- A `pd.read_csv` oracle that records the separator it was handed in the
single column name of the parsed frame. -/
def sepProbeRead : String → Char → Option DataFrame :=
  fun _ sep => some ⟨[String.mk [sep]], [], []⟩

/-! ## Claim theorems -/

/-- **C4.** The claim asserts `columnCount = c + 1` for every table type
including the Measurement model; `MeasurementModel.columnCount` is overridden
to return plain `c`, refuting it on any concrete frame. -/
theorem C4_counterexample :
    measurementColumnCount (mkMeasurementModel sampleMeasurementDf) ≠
      sampleMeasurementDf.columns.length + 1 := by
  decide

/-- **C4 (amended).** For a frame with `r` rows and `c` columns, `rowCount`
returns `r + 1` on every table model (no subclass overrides it, so this
includes the Measurement model), and `columnCount` returns `c + 1` on the base
and indexed models, while the Measurement model's overridden `columnCount`
returns plain `c`. -/
theorem C4_row_column_count (m : TableModel) :
    rowCount m = m.df.index.length + 1 ∧
    columnCount m = m.df.columns.length + 1 ∧
    measurementColumnCount m = m.df.columns.length := by
  exact ⟨rfl, rfl, rfl⟩

/-- **C8.** `Controller.save_model` produces an archive holding exactly one
CSV per table — `measurement.csv`, `observable.csv`, `parameter.csv`,
`condition.csv` — plus the SBML text as `model.xml`, and the archive contents
are independent of the models' invalid-cell sets. -/
theorem C8_save_archive (m_df o_df p_df c_df : DataFrame)
    (i1 i2 i3 i4 j1 j2 j3 j4 : List (Nat × Nat)) (sbml_text : String) :
    (save_model (controllerModels m_df o_df p_df c_df i1 i2 i3 i4)
        sbml_text).map Prod.fst =
      ["measurement.csv", "observable.csv", "parameter.csv", "condition.csv",
       "model.xml"] ∧
    save_model (controllerModels m_df o_df p_df c_df i1 i2 i3 i4) sbml_text =
      save_model (controllerModels m_df o_df p_df c_df j1 j2 j3 j4)
        sbml_text := by
  exact ⟨rfl, rfl⟩

/-- **C9.** `upload_and_overwrite_table` does read `.csv` with `;` and `.tsv`
with tab, and rejects other extensions with a log message, but on a file that
cannot be parsed the claim fails against the code: the `except` branch calls
`self.view.log_message`, a method `TableViewer` does not define, so the error
is not reported to the log (an `AttributeError` is raised instead); the
DataFrame is nevertheless left unchanged.  Evaluated here at the failing
input `data.csv` with a failing parse, alongside the healthy branches. -/
theorem C9_upload_dispatch_and_parse_failure :
    (upload_and_overwrite_table failingRead "data.csv"
        (mkMeasurementModel sampleMeasurementDf) =
      (mkMeasurementModel sampleMeasurementDf,
       .viewLogFailure "Failed to read file")) ∧
    ((upload_and_overwrite_table sepProbeRead "data.csv"
        (mkMeasurementModel sampleMeasurementDf)).1.df.columns = [";"]) ∧
    ((upload_and_overwrite_table sepProbeRead "data.tsv"
        (mkMeasurementModel sampleMeasurementDf)).1.df.columns = ["\t"]) ∧
    (upload_and_overwrite_table failingRead "data.txt"
        (mkMeasurementModel sampleMeasurementDf) =
      (mkMeasurementModel sampleMeasurementDf,
       .loggedError
         "Unsupported file format. Please upload a CSV or TSV file.")) := by
  exact ⟨by decide, by decide, by decide, by decide⟩

/-- **C2.** On an indexed table model, `setData` on the index column
(column 0) of an existing row with a target key already present in the key
set returns `False`, leaves the whole model (hence both affected rows)
unchanged, and emits no rename notification. -/
theorem C2_duplicate_rename_rejected (m : TableModel) (row : Nat)
    (value : String)
    (hni : m.has_named_index = true)
    (hrow : row < m.df.index.length)
    (hdup : PyVal.str value ∈ m.df.index) :
    (setData m row 0 value).ok = false ∧
    (setData m row 0 value).model = m ∧
    ∀ a b, Sig.observableIdChanged a b ∉ (setData m row 0 value).sigs := by
  have hne : row ≠ m.df.index.length := Nat.ne_of_lt hrow
  simp only [setData, if_neg hne, hni, and_true, if_pos rfl,
    List.getD_eq_getElem?_getD]
  by_cases h : PyVal.str value = m.df.index[row]?.getD (.str "")
  · simp [handle_named_index, List.getD_eq_getElem?_getD, h]
  · simp [handle_named_index, List.getD_eq_getElem?_getD, h, hdup]

/-- **C10.** On a table model without a named index, a non-trailing edit of a
cell in the `observableId` column commits the new value with no
declared-type validation and no duplicate check (`allowed_columns` is fully
arbitrary here, so the conclusion cannot depend on any validation outcome):
`setData` returns `True`, the cell holds the new value, and
`observable_id_changed` is emitted with the new and the old value; no
rejection log message is emitted. -/
theorem C10_observableId_commit (m : TableModel) (row col : Nat)
    (value : String)
    (hni : m.has_named_index = false)
    (hrow : row < m.df.index.length)
    (hname : m.df.columns.getD col "" = "observableId")
    (hneq : PyVal.str value ≠ (m.df.rows.getD row []).getD col (.str "")) :
    (setData m row col value).ok = true ∧
    (setData m row col value).model.df = ilocSet m.df row col (.str value) ∧
    Sig.observableIdChanged (.str value)
        ((m.df.rows.getD row []).getD col (.str ""))
      ∈ (setData m row col value).sigs ∧
    ∀ msg color, Sig.newLogMessage msg color ∉ (setData m row col value).sigs := by
  have hne : row ≠ m.df.index.length := Nat.ne_of_lt hrow
  simp only [List.getD_eq_getElem?_getD] at hname hneq
  simp only [setData, if_neg hne, hni, Bool.false_eq_true, and_false,
    if_false, Nat.sub_zero, List.getD_eq_getElem?_getD]
  rw [if_neg hneq, hname]
  simp

/-- **C1.** A non-trailing `setData` edit of a data-column cell whose column
has a declared type in `allowed_columns`, with a value that fails conversion
to that type, returns `False`, leaves the model (hence the prior cell value)
unchanged, and emits neither `something_changed` nor `dataChanged`.  The
hypothesis on `"observableId"` records that every actual table declares it
as `STRING` (under which conversion never fails), so the validation-skipping
`observableId` branch cannot be reached with a failing conversion. -/
theorem C1_invalid_type_edit_rejected (m : TableModel) (row col : Nat)
    (value t : String)
    (hrow : row < m.df.index.length)
    (hnb : ¬(col = 0 ∧ m.has_named_index = true))
    (ht : m.allowed_columns.lookup
      (m.df.columns.getD (col - (if m.has_named_index then 1 else 0)) "") =
      some t)
    (herr : (validate_value value t).2.isSome)
    (hobs : ∀ t', m.allowed_columns.lookup "observableId" = some t' →
      t' = "STRING") :
    (setData m row col value).ok = false ∧
    (setData m row col value).model = m ∧
    Sig.somethingChanged ∉ (setData m row col value).sigs ∧
    Sig.dataChanged ∉ (setData m row col value).sigs := by
  have hne : row ≠ m.df.index.length := Nat.ne_of_lt hrow
  by_cases hobsname :
      m.df.columns.getD (col - (if m.has_named_index then 1 else 0)) "" =
        "observableId"
  · exfalso
    rw [hobsname] at ht
    have hstr := hobs t ht
    rw [hstr] at herr
    simp [validate_value] at herr
  · obtain ⟨a, b, hval⟩ : ∃ a b, validate_value value t = (a, b) := ⟨_, _, rfl⟩
    rw [hval] at herr
    cases b with
    | none => simp at herr
    | some msg =>
      simp only [List.getD_eq_getElem?_getD] at hobsname ht
      simp only [setData, if_neg hne, if_neg hnb, List.getD_eq_getElem?_getD]
      by_cases hold : PyVal.str value =
          (m.df.rows[row]?.getD
            [])[col - if m.has_named_index = true then 1 else 0]?.getD
            (.str "")
      · rw [if_pos hold]
        simp
      · rw [if_neg hold, if_neg hobsname]
        simp only [ht, hval]
        simp

/-- `handle_named_index` never changes the number of rows or index labels. -/
theorem handle_named_index_lengths (m : TableModel) (row : Nat)
    (value : String) :
    (handle_named_index m row value).model.df.index.length =
      m.df.index.length ∧
    (handle_named_index m row value).model.df.rows.length =
      m.df.rows.length := by
  unfold handle_named_index
  by_cases h1 : PyVal.str value = m.df.index.getD row (PyVal.str "")
  · rw [if_pos h1]
    exact ⟨rfl, rfl⟩
  · rw [if_neg h1]
    by_cases h2 : PyVal.str value ∈ m.df.index
    · rw [if_pos h2]
      exact ⟨rfl, rfl⟩
    · rw [if_neg h2]
      simp

/-- **C5.** Editing the first cell of the synthetic trailing row materializes
a new row: `insertRows` appends exactly one row of empty strings at the end of
the frame, and the `setData` call as a whole grows the data by exactly one row
(whatever the edit then does to the new row, on indexed and plain models
alike).  The freshness hypothesis states that the integer label `len(df)` is
not yet an index label, which holds for every frame the GUI builds
(contiguous RangeIndex or string keys). -/
theorem C5_trailing_edit_materializes_row (m : TableModel) (value : String)
    (hfresh : PyVal.intv m.df.index.length ∉ m.df.index) :
    insertRows m.df 1 =
      { m.df with
        index := m.df.index ++ [.intv m.df.index.length],
        rows := m.df.rows ++ [List.replicate m.df.columns.length (.str "")] } ∧
    (setData m m.df.index.length 0 value).model.df.index.length =
      m.df.index.length + 1 ∧
    (setData m m.df.index.length 0 value).model.df.rows.length =
      m.df.rows.length + 1 := by
  have hins : insertRows m.df 1 =
      { m.df with
        index := m.df.index ++ [.intv m.df.index.length],
        rows := m.df.rows ++ [List.replicate m.df.columns.length (.str "")] } := by
    unfold insertRows
    simp only [List.range_succ, List.range_zero, List.nil_append,
      List.foldl_cons, List.foldl_nil, Nat.add_zero]
    unfold locSet
    rw [if_neg hfresh]
  refine ⟨hins, ?_, ?_⟩ <;>
  · simp only [setData, eq_self_iff_true, if_true, hins]
    repeat' split
    all_goals
      simp_all [handle_named_index_lengths, ilocSet, List.length_set]

/-- Positional read of cell `(r, c)` of a frame. -/
def cellAt (df : DataFrame) (r c : Nat) : PyVal :=
  (df.rows.getD r []).getD c (.str "")

/-- `getD` through `map` at an in-range position. -/
theorem getD_map_of_lt {α β : Type} (f : α → β) (l : List α) (r : Nat)
    (hr : r < l.length) (d : β) (d' : α) :
    (l.map f).getD r d = f (l.getD r d') := by
  have hr' : r < (l.map f).length := by simpa using hr
  rw [List.getD_eq_getElem?_getD, List.getElem?_eq_getElem hr',
    List.getD_eq_getElem?_getD, List.getElem?_eq_getElem hr]
  simp

/-- `getD` after `set` at the same in-range position. -/
theorem getD_set_self_of_lt {α : Type} (l : List α) (i : Nat) (v : α)
    (hi : i < l.length) (d : α) :
    (l.set i v).getD i d = v := by
  rw [List.getD_eq_getElem?_getD, List.getElem?_set_eq_of_lt _ hi]
  rfl

/-- `getD` after `set` at a different position. -/
theorem getD_set_of_ne {α : Type} (l : List α) (i j : Nat) (v : α)
    (h : i ≠ j) (d : α) :
    (l.set i v).getD j d = l.getD j d := by
  rw [List.getD_eq_getElem?_getD, List.getElem?_set_ne h,
    List.getD_eq_getElem?_getD]

/-- **C6.** When an Observable id rename from `old_id` to `new_id` reaches the
cascade dialog: declining leaves the Measurement frame entirely unchanged,
and confirming replaces `observableId` by `new_id` in exactly the rows where
it equals `old_id` while every other cell (and the column list and index) is
untouched. -/
theorem C6_observable_rename_cascade (mdf : DataFrame) (old_id new_id : PyVal)
    (hcol : "observableId" ∈ mdf.columns)
    (hrect : ∀ r ∈ mdf.rows, r.length = mdf.columns.length) :
    maybe_rename_observable false mdf old_id new_id = mdf ∧
    (maybe_rename_observable true mdf old_id new_id).columns = mdf.columns ∧
    (maybe_rename_observable true mdf old_id new_id).index = mdf.index ∧
    ∀ r, r < mdf.rows.length →
      (cellAt (maybe_rename_observable true mdf old_id new_id) r
          (mdf.columns.indexOf "observableId") =
        if cellAt mdf r (mdf.columns.indexOf "observableId") = old_id
        then new_id
        else cellAt mdf r (mdf.columns.indexOf "observableId")) ∧
      ∀ c, c ≠ mdf.columns.indexOf "observableId" →
        cellAt (maybe_rename_observable true mdf old_id new_id) r c =
          cellAt mdf r c := by
  refine ⟨rfl, rfl, rfl, ?_⟩
  intro r hr
  have hcObs : mdf.columns.indexOf "observableId" < mdf.columns.length :=
    List.indexOf_lt_length.mpr hcol
  have hrowlen : (mdf.rows.getD r []).length = mdf.columns.length := by
    apply hrect
    rw [List.getD_eq_getElem?_getD, List.getElem?_eq_getElem hr,
      Option.getD_some]
    exact List.getElem_mem _
  have hcObs' : mdf.columns.indexOf "observableId" <
      (mdf.rows.getD r []).length := by
    rw [hrowlen]; exact hcObs
  have hmap : ∀ c, cellAt (maybe_rename_observable true mdf old_id new_id) r c
      = (if (mdf.rows.getD r []).getD (mdf.columns.indexOf "observableId")
            (.str "") = old_id
         then (mdf.rows.getD r []).set (mdf.columns.indexOf "observableId")
            new_id
         else mdf.rows.getD r []).getD c (.str "") := by
    intro c
    unfold cellAt maybe_rename_observable rename_observable
    simp only [if_true]
    rw [getD_map_of_lt _ _ _ hr _ []]
  constructor
  · rw [hmap]
    by_cases hc : (mdf.rows.getD r []).getD
        (mdf.columns.indexOf "observableId") (.str "") = old_id
    · rw [if_pos hc, getD_set_self_of_lt _ _ _ hcObs']
      unfold cellAt
      rw [if_pos hc]
    · rw [if_neg hc]
      unfold cellAt
      rw [if_neg hc]
  · intro c hc
    rw [hmap]
    by_cases hcond : (mdf.rows.getD r []).getD
        (mdf.columns.indexOf "observableId") (.str "") = old_id
    · rw [if_pos hcond, getD_set_of_ne _ _ _ _ (Ne.symm hc)]
      rfl
    · rw [if_neg hcond]
      rfl

/-- Replacing one value of a duplicate-free list by a fresh value keeps it
duplicate-free. -/
theorem nodup_map_replace {α : Type} [DecidableEq α] (old v : α) :
    ∀ (l : List α), l.Nodup → v ∉ l →
      (l.map (fun x => if x = old then v else x)).Nodup := by
  intro l
  induction l with
  | nil =>
    intro _ _
    simp
  | cons h t ih =>
    intro hl hv
    rw [List.mem_cons, not_or] at hv
    rw [List.nodup_cons] at hl
    rw [List.map_cons, List.nodup_cons]
    refine ⟨?_, ih hl.2 hv.2⟩
    intro hmem
    rw [List.mem_map] at hmem
    obtain ⟨x, hx, hfx⟩ := hmem
    by_cases hho : h = old
    · rw [if_pos hho] at hfx
      by_cases hxo : x = old
      · rw [if_pos hxo] at hfx
        exact hl.1 (hho ▸ hxo ▸ hx)
      · rw [if_neg hxo] at hfx
        exact hv.2 (hfx ▸ hx)
    · rw [if_neg hho] at hfx
      by_cases hxo : x = old
      · rw [if_pos hxo] at hfx
        exact hv.1 hfx
      · rw [if_neg hxo] at hfx
        exact hl.1 (hfx ▸ hx)

/-- Setting a position of a duplicate-free list to a fresh value keeps it
duplicate-free. -/
theorem nodup_set_of_not_mem {α : Type} (v : α) :
    ∀ (l : List α) (i : Nat), l.Nodup → v ∉ l → (l.set i v).Nodup := by
  intro l
  induction l with
  | nil =>
    intro i _ _
    simp
  | cons h t ih =>
    intro i hl hv
    rw [List.mem_cons, not_or] at hv
    rw [List.nodup_cons] at hl
    cases i with
    | zero =>
      rw [List.set_cons_zero, List.nodup_cons]
      exact ⟨hv.2, hl.2⟩
    | succ n =>
      rw [List.set_cons_succ, List.nodup_cons]
      refine ⟨?_, ih n hl.2 hv.2⟩
      intro hmem
      rcases List.mem_or_eq_of_mem_set hmem with hm | he
      · exact hl.1 hm
      · exact hv.1 he.symm

/-- **C3 (counterexample).** The claim asserts that every model operation, in
particular `fill_row`, preserves key uniqueness; `ObservableModel.fill_row`
performs no duplicate check, so filling row 0 of the frame with keys
`a`, `b` with `observableId = "b"` yields the duplicated index `b`, `b`. -/
theorem C3_counterexample :
    (mkObservableModel sampleObservableDf).df.index.Nodup ∧
    ¬(fill_row (mkObservableModel sampleObservableDf) 0
        [("observableId", PyVal.str "b")]).df.index.Nodup := by
  exact ⟨by decide, by decide⟩

/-- **C3 (amended).** Key uniqueness is an invariant of the index-column
rename: `handle_named_index` preserves a duplicate-free index
unconditionally (it rejects colliding targets).  `fill_row`, however,
preserves it only under the guard its caller `maybe_add_observable` enforces:
the supplied `observableId` must not already be an index key. -/
theorem C3_key_uniqueness (m : TableModel) (row : Nat) (value : String)
    (data : List (String × PyVal))
    (hU : m.df.index.Nodup)
    (hkey : (data.lookup "observableId").getD (.str "") ∉ m.df.index) :
    (handle_named_index m row value).model.df.index.Nodup ∧
    (fill_row m row data).df.index.Nodup := by
  constructor
  · unfold handle_named_index
    by_cases h1 : PyVal.str value = m.df.index.getD row (.str "")
    · rw [if_pos h1]
      exact hU
    · rw [if_neg h1]
      by_cases h2 : PyVal.str value ∈ m.df.index
      · rw [if_pos h2]
        exact hU
      · rw [if_neg h2]
        exact nodup_map_replace _ _ _ hU h2
  · unfold fill_row
    exact nodup_set_of_not_mem _ _ _ hU hkey

/-- The rows kept after dropping every label `.intv r`, `r ∈ sel`. -/
def keepPred (sel : List Nat) (p : PyVal × List PyVal) : Bool :=
  decide (∀ r ∈ sel, p.1 ≠ PyVal.intv r)

/-- Membership in `insertDesc`. -/
theorem mem_insertDesc (a x : Nat) :
    ∀ l : List Nat, x ∈ insertDesc a l ↔ x = a ∨ x ∈ l := by
  intro l
  induction l with
  | nil => simp [insertDesc]
  | cons b t ih =>
    unfold insertDesc
    by_cases h : b ≤ a
    · rw [if_pos h]
      simp
    · rw [if_neg h]
      rw [List.mem_cons, List.mem_cons, ih]
      tauto

/-- Sorting in descending order does not change membership. -/
theorem mem_sortDesc (x : Nat) : ∀ l : List Nat, x ∈ sortDesc l ↔ x ∈ l := by
  intro l
  induction l with
  | nil => simp [sortDesc]
  | cons a t ih =>
    unfold sortDesc
    rw [mem_insertDesc, ih, List.mem_cons]

/-- Label/row pairs surviving a `dropLabel`. -/
theorem dropLabel_zip (df : DataFrame) (label : PyVal) :
    (dropLabel df label).index.zip (dropLabel df label).rows =
      (df.index.zip df.rows).filter (fun p => p.1 ≠ label) := by
  unfold dropLabel
  exact Eq.symm (List.zip_of_prod rfl rfl)

/-- Dropping a list of labels one by one filters the label/row pairs by
`keepPred`. -/
theorem foldl_dropLabel_eq :
    ∀ (sel : List Nat) (df : DataFrame),
      df.index.length = df.rows.length →
      (sel.foldl (fun d r => dropLabel d (.intv r)) df).index =
        ((df.index.zip df.rows).filter (keepPred sel)).map Prod.fst ∧
      (sel.foldl (fun d r => dropLabel d (.intv r)) df).rows =
        ((df.index.zip df.rows).filter (keepPred sel)).map Prod.snd ∧
      (sel.foldl (fun d r => dropLabel d (.intv r)) df).columns =
        df.columns := by
  intro sel
  induction sel with
  | nil =>
    intro df hlen
    have hkp : (df.index.zip df.rows).filter (keepPred []) =
        df.index.zip df.rows := by
      have h : keepPred [] = fun _ => true := by
        funext p
        simp [keepPred]
      rw [h, List.filter_true]
    rw [List.foldl_nil, hkp]
    exact ⟨(List.map_fst_zip _ _ (le_of_eq hlen)).symm,
      (List.map_snd_zip _ _ (le_of_eq hlen.symm)).symm, rfl⟩
  | cons a rest ih =>
    intro df hlen
    have hlen' : (dropLabel df (.intv a)).index.length =
        (dropLabel df (.intv a)).rows.length := by
      unfold dropLabel
      simp
    have hp : ∀ p ∈ df.index.zip df.rows,
        (keepPred rest p && decide (p.1 ≠ PyVal.intv a)) =
          keepPred (a :: rest) p := by
      intro p _
      simp only [keepPred, List.forall_mem_cons]
      by_cases hA : p.1 ≠ PyVal.intv a <;>
        by_cases hB : ∀ r ∈ rest, p.1 ≠ PyVal.intv r <;>
          simp [hA, hB]
    obtain ⟨hi, hr, hc⟩ := ih (dropLabel df (.intv a)) hlen'
    rw [List.foldl_cons]
    refine ⟨?_, ?_, ?_⟩
    · rw [hi, dropLabel_zip, List.filter_filter, List.filter_congr hp]
    · rw [hr, dropLabel_zip, List.filter_filter, List.filter_congr hp]
    · rw [hc]
      rfl

/-- **C7.** For a non-empty selection of distinct valid row numbers on a
frame with a contiguous RangeIndex (the state `delete_row` maintains: the
hypotheses also rule out the `KeyError` that duplicate or out-of-range
labels would raise in `df.drop`), `delete_row` keeps exactly the rows at
unselected positions, in order, reindexes the survivors contiguously from
zero, and leaves the columns unchanged. -/
theorem C7_delete_selected_rows (df : DataFrame) (sel : List Nat)
    (hne : sel ≠ [])
    (hnodup : sel.Nodup)
    (hrange : df.index = (List.range df.rows.length).map PyVal.intv)
    (hvalid : ∀ r ∈ sel, r < df.rows.length) :
    (delete_row df sel).rows =
      (((List.range df.rows.length).zip df.rows).filter
        (fun p => decide (p.1 ∉ sel))).map Prod.snd ∧
    (delete_row df sel).index =
      (List.range (delete_row df sel).rows.length).map PyVal.intv ∧
    (delete_row df sel).columns = df.columns := by
  have hlen : df.index.length = df.rows.length := by
    rw [hrange]
    simp
  have hie : sel.isEmpty = false := by
    cases sel with
    | nil => exact absurd rfl hne
    | cons a t => rfl
  have hsort : ∀ p ∈ df.index.zip df.rows,
      keepPred (sortDesc sel) p = keepPred sel p := by
    intro p _
    simp only [keepPred]
    rw [decide_eq_decide]
    constructor <;> intro h r hr
    · exact h r ((mem_sortDesc r sel).mpr hr)
    · exact h r ((mem_sortDesc r sel).mp hr)
  have hpred : ∀ p ∈ (List.range df.rows.length).zip df.rows,
      keepPred sel (Prod.map PyVal.intv id p) = decide (p.1 ∉ sel) := by
    intro p _
    simp only [keepPred, Prod.map]
    rw [decide_eq_decide]
    constructor
    · intro h hmem
      exact (h p.1 hmem) rfl
    · intro hnot r hrmem heq
      rw [PyVal.intv.injEq] at heq
      exact hnot (heq ▸ hrmem)
  obtain ⟨hi, hr, hc⟩ := foldl_dropLabel_eq (sortDesc sel) df hlen
  simp only [delete_row, hie, Bool.false_eq_true, if_false, reset_index]
  refine ⟨?_, trivial, hc⟩
  rw [hr, List.filter_congr hsort, hrange, List.zip_map_left,
    List.filter_map, List.map_map]
  have hsnd : Prod.snd ∘ Prod.map PyVal.intv (id : List PyVal → List PyVal) =
      Prod.snd := by
    funext p
    rfl
  rw [hsnd]
  simp only [Function.comp_def]
  rw [List.filter_congr hpred]

/-! ## Witnesses: each hypothesis-bearing claim theorem applied at a concrete
input. -/

/-- Witness for C1: editing the `time` cell of row 0 of a concrete
measurement model with the non-numeric string `abc`. -/
theorem C1_witness :
    0 < (mkMeasurementModel sampleMeasurementDf).df.index.length ∧
    ¬(1 = 0 ∧ (mkMeasurementModel sampleMeasurementDf).has_named_index = true) ∧
    (mkMeasurementModel sampleMeasurementDf).allowed_columns.lookup
      ((mkMeasurementModel sampleMeasurementDf).df.columns.getD 1 "") =
      some "NUMERIC" ∧
    (validate_value "abc" "NUMERIC").2.isSome ∧
    ((setData (mkMeasurementModel sampleMeasurementDf) 0 1 "abc").ok = false ∧
     (setData (mkMeasurementModel sampleMeasurementDf) 0 1 "abc").model =
       mkMeasurementModel sampleMeasurementDf ∧
     Sig.somethingChanged ∉
       (setData (mkMeasurementModel sampleMeasurementDf) 0 1 "abc").sigs ∧
     Sig.dataChanged ∉
       (setData (mkMeasurementModel sampleMeasurementDf) 0 1 "abc").sigs) := by
  refine ⟨by decide, by decide, by decide, by decide, ?_⟩
  exact C1_invalid_type_edit_rejected (mkMeasurementModel sampleMeasurementDf)
    0 1 "abc" "NUMERIC" (by decide) (by decide) (by decide) (by decide)
    (by
      intro t' h
      have hcomp : (mkMeasurementModel
          sampleMeasurementDf).allowed_columns.lookup "observableId" =
          some "STRING" := by decide
      have h2 := hcomp.symm.trans h
      injection h2 with h3
      exact h3.symm)

/-- Witness for C2: renaming key `a` of a concrete observable model to the
already-present key `b`. -/
theorem C2_witness :
    (mkObservableModel sampleObservableDf).has_named_index = true ∧
    0 < (mkObservableModel sampleObservableDf).df.index.length ∧
    PyVal.str "b" ∈ (mkObservableModel sampleObservableDf).df.index ∧
    ((setData (mkObservableModel sampleObservableDf) 0 0 "b").ok = false ∧
     (setData (mkObservableModel sampleObservableDf) 0 0 "b").model =
       mkObservableModel sampleObservableDf ∧
     ∀ a b, Sig.observableIdChanged a b ∉
       (setData (mkObservableModel sampleObservableDf) 0 0 "b").sigs) := by
  refine ⟨by decide, by decide, by decide, ?_⟩
  exact C2_duplicate_rename_rejected (mkObservableModel sampleObservableDf)
    0 "b" (by decide) (by decide) (by decide)

/-- Witness for C3 (amended): renaming key `a` to the fresh key `c` and
filling row 0 with the fresh key `c` on a concrete observable model. -/
theorem C3_witness :
    (mkObservableModel sampleObservableDf).df.index.Nodup ∧
    (([("observableId", PyVal.str "c")] :
        List (String × PyVal)).lookup "observableId").getD (.str "") ∉
      (mkObservableModel sampleObservableDf).df.index ∧
    ((handle_named_index (mkObservableModel sampleObservableDf) 0
        "c").model.df.index.Nodup ∧
     (fill_row (mkObservableModel sampleObservableDf) 0
        [("observableId", PyVal.str "c")]).df.index.Nodup) := by
  refine ⟨by decide, by decide, ?_⟩
  exact C3_key_uniqueness (mkObservableModel sampleObservableDf) 0 "c"
    [("observableId", PyVal.str "c")] (by decide) (by decide)

/-- Witness for C5: editing the first cell of the trailing row of a concrete
two-row measurement model. -/
theorem C5_witness :
    PyVal.intv (mkMeasurementModel sampleMeasurementDf).df.index.length ∉
      (mkMeasurementModel sampleMeasurementDf).df.index ∧
    (insertRows (mkMeasurementModel sampleMeasurementDf).df 1 =
      { (mkMeasurementModel sampleMeasurementDf).df with
        index := (mkMeasurementModel sampleMeasurementDf).df.index ++
          [.intv (mkMeasurementModel sampleMeasurementDf).df.index.length],
        rows := (mkMeasurementModel sampleMeasurementDf).df.rows ++
          [List.replicate
            (mkMeasurementModel sampleMeasurementDf).df.columns.length
            (.str "")] } ∧
     (setData (mkMeasurementModel sampleMeasurementDf)
        (mkMeasurementModel sampleMeasurementDf).df.index.length 0
        "obsNew").model.df.index.length =
       (mkMeasurementModel sampleMeasurementDf).df.index.length + 1 ∧
     (setData (mkMeasurementModel sampleMeasurementDf)
        (mkMeasurementModel sampleMeasurementDf).df.index.length 0
        "obsNew").model.df.rows.length =
       (mkMeasurementModel sampleMeasurementDf).df.rows.length + 1) := by
  refine ⟨by decide, ?_⟩
  exact C5_trailing_edit_materializes_row
    (mkMeasurementModel sampleMeasurementDf) "obsNew" (by decide)

/-- Witness for C6: renaming observable `obs1` to `obsN` over a concrete
measurement frame, cascade confirmed and declined. -/
theorem C6_witness :
    "observableId" ∈ sampleMeasurementDf.columns ∧
    (∀ r ∈ sampleMeasurementDf.rows,
      r.length = sampleMeasurementDf.columns.length) ∧
    (maybe_rename_observable false sampleMeasurementDf (.str "obs1")
        (.str "obsN") = sampleMeasurementDf ∧
     (maybe_rename_observable true sampleMeasurementDf (.str "obs1")
        (.str "obsN")).columns = sampleMeasurementDf.columns ∧
     (maybe_rename_observable true sampleMeasurementDf (.str "obs1")
        (.str "obsN")).index = sampleMeasurementDf.index ∧
     ∀ r, r < sampleMeasurementDf.rows.length →
       (cellAt (maybe_rename_observable true sampleMeasurementDf
            (.str "obs1") (.str "obsN")) r
           (sampleMeasurementDf.columns.indexOf "observableId") =
         if cellAt sampleMeasurementDf r
              (sampleMeasurementDf.columns.indexOf "observableId") =
            PyVal.str "obs1"
         then PyVal.str "obsN"
         else cellAt sampleMeasurementDf r
           (sampleMeasurementDf.columns.indexOf "observableId")) ∧
       ∀ c, c ≠ sampleMeasurementDf.columns.indexOf "observableId" →
         cellAt (maybe_rename_observable true sampleMeasurementDf
             (.str "obs1") (.str "obsN")) r c =
           cellAt sampleMeasurementDf r c) := by
  refine ⟨by decide, by decide, ?_⟩
  exact C6_observable_rename_cascade sampleMeasurementDf (.str "obs1")
    (.str "obsN") (by decide) (by decide)

/-- Witness for C7: deleting rows 0 and 2 of a concrete three-row frame. -/
theorem C7_witness :
    ([0, 2] : List Nat) ≠ [] ∧
    ([0, 2] : List Nat).Nodup ∧
    sampleRangeDf.index =
      (List.range sampleRangeDf.rows.length).map PyVal.intv ∧
    (∀ r ∈ ([0, 2] : List Nat), r < sampleRangeDf.rows.length) ∧
    ((delete_row sampleRangeDf [0, 2]).rows =
      (((List.range sampleRangeDf.rows.length).zip
          sampleRangeDf.rows).filter
        (fun p => decide (p.1 ∉ ([0, 2] : List Nat)))).map Prod.snd ∧
     (delete_row sampleRangeDf [0, 2]).index =
       (List.range (delete_row sampleRangeDf [0, 2]).rows.length).map
         PyVal.intv ∧
     (delete_row sampleRangeDf [0, 2]).columns = sampleRangeDf.columns) := by
  refine ⟨by decide, by decide, by decide, by decide, ?_⟩
  exact C7_delete_selected_rows sampleRangeDf [0, 2] (by decide) (by decide)
    (by decide) (by decide)

/-- Witness for C10: editing the `observableId` cell of row 0 of a concrete
measurement model to a fresh value. -/
theorem C10_witness :
    (mkMeasurementModel sampleMeasurementDf).has_named_index = false ∧
    0 < (mkMeasurementModel sampleMeasurementDf).df.index.length ∧
    (mkMeasurementModel sampleMeasurementDf).df.columns.getD 0 "" =
      "observableId" ∧
    PyVal.str "obsX" ≠
      ((mkMeasurementModel sampleMeasurementDf).df.rows.getD 0 []).getD 0
        (.str "") ∧
    ((setData (mkMeasurementModel sampleMeasurementDf) 0 0 "obsX").ok =
       true ∧
     (setData (mkMeasurementModel sampleMeasurementDf) 0 0
        "obsX").model.df =
       ilocSet (mkMeasurementModel sampleMeasurementDf).df 0 0
         (.str "obsX") ∧
     Sig.observableIdChanged (.str "obsX")
        (((mkMeasurementModel sampleMeasurementDf).df.rows.getD 0
            []).getD 0 (.str ""))
       ∈ (setData (mkMeasurementModel sampleMeasurementDf) 0 0 "obsX").sigs ∧
     ∀ msg color, Sig.newLogMessage msg color ∉
       (setData (mkMeasurementModel sampleMeasurementDf) 0 0 "obsX").sigs) := by
  refine ⟨by decide, by decide, by decide, by decide, ?_⟩
  exact C10_observableId_commit (mkMeasurementModel sampleMeasurementDf)
    0 0 "obsX" (by decide) (by decide) (by decide) (by decide)

end PetabGui
